import Mathlib

/-!
Shallow embedding of the streaming anomaly-detection engine of
`src/detection_anomalies.py` (class `DetecteurAnomalies`), of the relevant
configuration constants of `src/config.py` (`IAConfig`), and of the alert
service of `src/email_service.py` (class `EmailService`).

Modelling conventions:
* Python floats are modelled by exact rationals `ℚ` (ideal arithmetic).
* The square root used inside `pandas.DataFrame.std` and the whole
  `sklearn.ensemble.IsolationForest` fit/predict/decision_function pipeline
  are opaque numeric computations; they are abstracted as fields of an
  environment record `Env` so that every theorem quantifies over them.
* A Python dict payload with possibly-missing keys is modelled by a record
  with `Option` fields; reading a missing key raises `PyError.keyError`,
  modelled with `Except`.
* Mutation of `self` is modelled by explicit state passing on the record
  `Detecteur`; a method that can raise returns `Except PyError α × Detecteur`
  where the second component is the state at the moment of return or raise.
-/

namespace IoT

/-- Error raised by a Python dict access on a missing key. -/
inductive PyError where
  | keyError (key : String)
deriving DecidableEq, Repr

/-- A sensor reading as delivered by MQTT: a JSON dict whose numeric fields
may be absent (`config`-independent; see `on_message` / `ajouter_donnee`).
`sensor_id` and `timestamp` are carried along untouched. -/
structure Reading where
  sensor_id : String
  timestamp : String
  temperature : Option ℚ
  humidity : Option ℚ
deriving DecidableEq, Repr

/-- `IAConfig` from `src/config.py` with its literal defaults. -/
structure IAConfig where
  contamination : ℚ := 1/20
  random_state : ℕ := 42
  n_estimators : ℕ := 100
  zscore_seuil : ℚ := 3
  fenetre_analyse : ℕ := 100
deriving Repr

/-- The module-level instance `ia_config = IAConfig()`. -/
def ia_config : IAConfig := {}

/-- The running statistics dict `self.stats` of `DetecteurAnomalies`. -/
structure Stats where
  count : ℕ
  mean_temp : ℚ
  std_temp : ℚ
  mean_hum : ℚ
  std_hum : ℚ
deriving DecidableEq, Repr

/-- Initial value of `self.stats` set in `DetecteurAnomalies.__init__`. -/
def initStats : Stats :=
  { count := 0, mean_temp := 0, std_temp := 0, mean_hum := 0, std_hum := 0 }

/-- Opaque numeric collaborators of the engine.
`sqrtQ` abstracts the square root inside `pandas` sample standard deviation;
`iforest` abstracts building the `IsolationForest(contamination, random_state,
n_estimators)` on the feature matrix of the window and evaluating
`(predict, decision_function)` on the new `(temperature, humidity)` point:
it returns the integer prediction (−1 = outlier, 1 = inlier) and the raw
decision-function score. -/
structure Env where
  sqrtQ : ℚ → ℚ
  iforest : List Reading → ℚ → ℚ → Int × ℚ

/-- A concrete trivial environment, used to evaluate the model at concrete
inputs on code paths that do not consult the abstracted collaborators. -/
def env0 : Env :=
  { sqrtQ := fun _ => 0, iforest := fun _ _ _ => (1, 0) }

/-! ### Sliding window: `deque(maxlen=...)` -/

/-- `deque.append` on a deque with `maxlen = cap`: append at the tail and
drop from the head while the length exceeds `cap`. -/
def dequeAppend (cap : ℕ) (xs : List Reading) (x : Reading) : List Reading :=
  let ys := xs ++ [x]
  if cap < ys.length then ys.drop (ys.length - cap) else ys

/-! ### Statistics: `mettre_a_jour_stats` -/

/-- Arithmetic mean of a list of rationals (`pandas .mean()`, which skips
missing values; the empty case — reachable only when every row of the window
lacks the column — is given the conventional value 0, where pandas would
produce NaN; no theorem below relies on that case). -/
def listMean (xs : List ℚ) : ℚ := xs.sum / xs.length

/-- Sample variance with `ddof = 1` (`pandas .std()` squared). For fewer than
two data points pandas yields NaN; the model returns 0 by convention (again
only reachable through malformed rows; no theorem relies on it). -/
def sampleVar (xs : List ℚ) : ℚ :=
  if xs.length < 2 then 0
  else ((xs.map fun x => (x - listMean xs) ^ 2).sum) / (xs.length - 1)

/-- The five fields recomputed by `mettre_a_jour_stats` when the window has
at least two rows: `count = len(df)`, means and sample standard deviations
of the `temperature` and `humidity` columns (missing values skipped). -/
def statsFromWindow (env : Env) (buffer : List Reading) : Stats :=
  let temps := buffer.filterMap Reading.temperature
  let hums := buffer.filterMap Reading.humidity
  { count := buffer.length
    mean_temp := listMean temps
    std_temp := env.sqrtQ (sampleVar temps)
    mean_hum := listMean hums
    std_hum := env.sqrtQ (sampleVar hums) }

/-- `DetecteurAnomalies.mettre_a_jour_stats`: early-returns (leaving
`self.stats` untouched) when the window holds fewer than two readings,
otherwise recomputes all five fields from the window contents. -/
def mettre_a_jour_stats (env : Env) (buffer : List Reading) (stats : Stats) :
    Stats :=
  if buffer.length < 2 then stats else statsFromWindow env buffer

/-! ### Z-score detector -/

/-- `DetecteurAnomalies.calculer_zscore`. -/
def calculer_zscore (valeur moyenne ecart_type : ℚ) : ℚ :=
  if ecart_type = 0 then 0 else (valeur - moyenne) / ecart_type

/-- Round-half-to-even to an integer (Python `round` on an exact value). -/
def roundHalfEven (q : ℚ) : ℤ :=
  let f := ⌊q⌋
  if q - f < 1/2 then f
  else if 1/2 < q - f then f + 1
  else if f % 2 = 0 then f else f + 1

/-- Python `round(x, 2)` on an exact rational. -/
def round2 (q : ℚ) : ℚ := (roundHalfEven (q * 100) : ℚ) / 100

/-- Python `round(x, 4)` on an exact rational. -/
def round4 (q : ℚ) : ℚ := (roundHalfEven (q * 10000) : ℚ) / 10000

/-- Result dict of `detecter_zscore`; the warm-up branch fills `details`
only, the warm branch fills the z-values and the threshold. -/
structure ZscoreResult where
  is_anomaly : Bool
  method : String
  details : Option String
  z_temperature : Option ℚ
  z_humidity : Option ℚ
  seuil : Option ℚ
deriving DecidableEq, Repr

/-- `DetecteurAnomalies.detecter_zscore`. -/
def detecter_zscore (stats : Stats) (temperature humidite : ℚ) :
    ZscoreResult :=
  if stats.count < 10 then
    { is_anomaly := false, method := "zscore"
      details := some "Données insuffisantes"
      z_temperature := none, z_humidity := none, seuil := none }
  else
    let z_temp := calculer_zscore temperature stats.mean_temp stats.std_temp
    let z_hum := calculer_zscore humidite stats.mean_hum stats.std_hum
    { is_anomaly := decide (ia_config.zscore_seuil < |z_temp| ∨
                            ia_config.zscore_seuil < |z_hum|)
      method := "zscore", details := none
      z_temperature := some (round2 z_temp)
      z_humidity := some (round2 z_hum)
      seuil := some ia_config.zscore_seuil }

/-! ### Isolation-forest detector -/

/-- Result dict of `detecter_isolation_forest`. -/
structure IForestResult where
  is_anomaly : Bool
  method : String
  details : Option String
  prediction : Option Int
  anomaly_score : Option ℚ
deriving DecidableEq, Repr

/-- `DetecteurAnomalies.detecter_isolation_forest`: below 20 buffered
readings it answers "insufficient data" without consulting the model;
otherwise it refits the forest on the whole buffer and scores the new
point (both abstracted by `env.iforest`). -/
def detecter_isolation_forest (env : Env) (buffer : List Reading)
    (temperature humidite : ℚ) : IForestResult :=
  if buffer.length < 20 then
    { is_anomaly := false, method := "isolation_forest"
      details := some "Données insuffisantes"
      prediction := none, anomaly_score := none }
  else
    let pr := env.iforest buffer temperature humidite
    { is_anomaly := decide (pr.1 = -1)
      method := "isolation_forest", details := none
      prediction := some pr.1
      anomaly_score := some (round4 pr.2) }

/-! ### Combined verdict -/

/-- Result dict of `detecter_anomalie`. -/
structure CombinedResult where
  is_anomaly : Bool
  detection_methods : List String
  zscore_result : ZscoreResult
  iforest_result : IForestResult
deriving DecidableEq, Repr

/-- `DetecteurAnomalies.detecter_anomalie`: reads `donnee["temperature"]`
then `donnee["humidity"]` (raising `KeyError` on a missing key), runs both
detectors and merges with OR, listing the detectors that fired. -/
def detecter_anomalie (env : Env) (stats : Stats) (buffer : List Reading)
    (donnee : Reading) : Except PyError CombinedResult :=
  match donnee.temperature with
  | none => .error (.keyError "temperature")
  | some temperature =>
    match donnee.humidity with
    | none => .error (.keyError "humidity")
    | some humidite =>
      let result_zscore := detecter_zscore stats temperature humidite
      let result_iforest := detecter_isolation_forest env buffer
        temperature humidite
      .ok
        { is_anomaly := result_zscore.is_anomaly || result_iforest.is_anomaly
          detection_methods :=
            (if result_zscore.is_anomaly then ["Z-score"] else []) ++
            (if result_iforest.is_anomaly then ["Isolation Forest"] else [])
          zscore_result := result_zscore
          iforest_result := result_iforest }

/-! ### Ingestion: `ajouter_donnee` and the ledger -/

/-- The enriched dict `donnee_enrichie` built in `ajouter_donnee`:
the original payload spread plus verdict, status string and the
comma-joined list of detection methods. -/
structure Enriched where
  sensor_id : String
  timestamp : String
  temperature : Option ℚ
  humidity : Option ℚ
  is_anomaly : Bool
  status : String
  detection_methods : String
deriving DecidableEq, Repr

/-- The mutable state of a `DetecteurAnomalies` instance (the MongoDB
handle and the sklearn model cache play no role in any claim and are
omitted: `self.model` is overwritten before use on every warm call). -/
structure Detecteur where
  buffer_taille : ℕ
  buffer_donnees : List Reading
  historique : List Enriched
  anomalies : List Enriched
  stats : Stats
deriving Repr

/-- The state built by `DetecteurAnomalies.__init__` (window capacity
`ia_config.fenetre_analyse`). -/
def initDetecteur : Detecteur :=
  { buffer_taille := ia_config.fenetre_analyse
    buffer_donnees := [], historique := [], anomalies := []
    stats := initStats }

/-- `DetecteurAnomalies.ajouter_donnee`: append to the window, recompute
statistics, classify, then append the enriched record to `historique` and —
when flagged — to `anomalies`. A `KeyError` raised inside
`detecter_anomalie` propagates after the window and statistics were already
mutated, leaving both ledgers untouched; the second component of the result
is the state at the moment of return or raise. -/
def ajouter_donnee (env : Env) (d : Detecteur) (donnee : Reading) :
    Except PyError CombinedResult × Detecteur :=
  let buffer := dequeAppend d.buffer_taille d.buffer_donnees donnee
  let stats := mettre_a_jour_stats env buffer d.stats
  match detecter_anomalie env stats buffer donnee with
  | .error e => (.error e, { d with buffer_donnees := buffer, stats := stats })
  | .ok result =>
    let donnee_enrichie : Enriched :=
      { sensor_id := donnee.sensor_id, timestamp := donnee.timestamp
        temperature := donnee.temperature, humidity := donnee.humidity
        is_anomaly := result.is_anomaly
        status := if result.is_anomaly then "ANOMALIE" else "NORMAL"
        detection_methods :=
          if result.detection_methods = [] then ""
          else String.intercalate "," result.detection_methods }
    (.ok result,
      { d with
          buffer_donnees := buffer
          stats := stats
          historique := d.historique ++ [donnee_enrichie]
          anomalies :=
            if result.is_anomaly then d.anomalies ++ [donnee_enrichie]
            else d.anomalies })

/-- Sequential ingestion of a stream of readings (the state after a whole
run of `ajouter_donnee` calls, errors propagate per-call as in
`RecepteurMQTT.on_message`, which catches and continues). -/
def runAll (env : Env) (d : Detecteur) (rs : List Reading) : Detecteur :=
  rs.foldl (fun s r => (ajouter_donnee env s r).2) d

/-! ### Email alert service (`src/email_service.py`) -/

/-- The two operating modes of `EmailService` decided in `__init__`. -/
inductive EmailMode where
  | simulation
  | smtp
deriving DecidableEq, Repr

/-- One call of `envoyer_alerte`, recorded as an observable invocation of
the alert sink: subject, body, severity level. -/
structure AlertInvocation where
  sujet : String
  message : String
  niveau : String
deriving DecidableEq, Repr

/-- Environment of the email service: the configured mode and the outcome
of the opaque SMTP exchange in `_envoyer_smtp` (true on success, false when
an exception was caught). -/
structure EmailEnv where
  mode : EmailMode
  smtpResult : String → String → String → Bool

/-- `EmailService.envoyer_alerte`: in simulation mode it only prints and
returns `False`; in SMTP mode it returns the outcome of `_envoyer_smtp`.
The first component records the single invocation of the sink. -/
def envoyer_alerte (env : EmailEnv) (sujet message niveau : String) :
    List AlertInvocation × Bool :=
  ([{ sujet := sujet, message := message, niveau := niveau }],
   match env.mode with
   | .simulation => false
   | .smtp => env.smtpResult sujet message niveau)

/-- `EmailService.alerte_temperature_critique`: above 35 °C send a
`"critical"` alert, below 10 °C a `"warning"` alert, otherwise do nothing
and return `False`. (The HTML bodies are abbreviated to their subject line
content; no claim concerns the body text.) -/
def alerte_temperature_critique (env : EmailEnv) (sensor_id : String)
    (temperature : ℚ) : List AlertInvocation × Bool :=
  if 35 < temperature then
    envoyer_alerte env ("🔥 SURCHAUFFE - Capteur " ++ sensor_id)
      "TEMPÉRATURE CRITIQUE DÉTECTÉE" "critical"
  else if temperature < 10 then
    envoyer_alerte env ("❄️ SOUS-TEMPÉRATURE - Capteur " ++ sensor_id)
      "TEMPÉRATURE BASSE DÉTECTÉE" "warning"
  else ([], false)

/-! ### Concrete fixtures used by counterexamples and witnesses -/

/-- A well-formed reading with both numeric fields present. -/
def mkReading (i : String) (t h : ℚ) : Reading :=
  { sensor_id := i, timestamp := "2026-01-01T00:00:00Z"
    temperature := some t, humidity := some h }

def rA : Reading := mkReading "C001" 25 40
def rB : Reading := mkReading "C002" 26 41
def rC : Reading := mkReading "C003" 24 39

/-- A malformed payload: the `temperature` key is absent. -/
def rMalformed : Reading :=
  { sensor_id := "C001", timestamp := "2026-01-01T00:00:00Z"
    temperature := none, humidity := some 50 }

/-- A second environment, differing from `env0` in both components. -/
def env1 : Env :=
  { sqrtQ := fun q => q, iforest := fun _ _ _ => (-1, 5) }

/-- A concrete email-service environment (simulation mode). -/
def emailEnv0 : EmailEnv :=
  { mode := .simulation, smtpResult := fun _ _ _ => true }

/-! ### Window lemmas -/

/-- One `deque.append` step is a drop-suffix of the appended list (when the
capacity is not exceeded the dropped prefix is empty). -/
lemma dequeAppend_eq (cap : ℕ) (xs : List Reading) (x : Reading) :
    dequeAppend cap xs x = (xs ++ [x]).drop (xs.length + 1 - cap) := by
  unfold dequeAppend
  simp only [List.length_append, List.length_singleton]
  split
  · rfl
  · next h =>
    have h0 : xs.length + 1 - cap = 0 := by omega
    rw [h0, List.drop_zero]

/-- Folding `deque.append` over a stream, starting from the window left by
a previous stream `ys`, yields the corresponding suffix of the full stream. -/
lemma foldl_dequeAppend_eq (cap : ℕ) :
    ∀ (xs ys : List Reading),
      List.foldl (dequeAppend cap) (ys.drop (ys.length - cap)) xs
        = (ys ++ xs).drop ((ys ++ xs).length - cap) := by
  intro xs
  induction xs with
  | nil => intro ys; simp
  | cons x xs ih =>
    intro ys
    rw [List.foldl_cons]
    have hstep : dequeAppend cap (ys.drop (ys.length - cap)) x
        = (ys ++ [x]).drop ((ys ++ [x]).length - cap) := by
      rw [dequeAppend_eq]
      rcases le_or_lt ys.length cap with hle | hlt
      · have h0 : ys.length - cap = 0 := by omega
        rw [h0, List.drop_zero]
        simp [List.length_append]
      · have hlen : (ys.drop (ys.length - cap)).length = cap := by
          rw [List.length_drop]; omega
        rw [hlen]
        have h1 : cap + 1 - cap = 1 := by omega
        rw [h1]
        rw [← List.drop_append_of_le_length (by omega : ys.length - cap ≤ ys.length)]
        rw [List.drop_drop]
        have h2 : ys.length - cap + 1 = (ys ++ [x]).length - cap := by
          simp only [List.length_append, List.length_singleton]; omega
        rw [h2]
    rw [hstep]
    have h3 := ih (ys ++ [x])
    simpa [List.append_assoc] using h3

/-- The window after inserting a whole stream into an initially empty
`deque(maxlen=cap)` is the last `cap` elements of the stream, in order. -/
lemma window_foldl (cap : ℕ) (xs : List Reading) :
    List.foldl (dequeAppend cap) [] xs = xs.drop (xs.length - cap) := by
  have h := foldl_dequeAppend_eq cap xs []
  simpa using h

/-! ### Claim theorems -/

/-- C4: for every sequence of insertions into the window (a
`deque(maxlen=cap)`, capacity `ia_config.fenetre_analyse = 100` in
`__init__`), the window length never exceeds the capacity, the window is
the order-preserving suffix of the insertion stream (so eviction is
strictly oldest-first), and after `cap + 1` insertions the window is
exactly the stream minus its first element: the first reading is gone
(whenever it does not reoccur later) and the `(cap+1)`-th is present. -/
theorem c4_window_bounded_fifo (cap : ℕ) (xs : List Reading) :
    initDetecteur.buffer_taille = 100
  ∧ (List.foldl (dequeAppend cap) [] xs).length ≤ cap
  ∧ List.foldl (dequeAppend cap) [] xs = xs.drop (xs.length - cap)
  ∧ (xs.length = cap + 1 → List.foldl (dequeAppend cap) [] xs = xs.tail)
  ∧ (xs.length = cap + 1 → 0 < cap → ∀ x, xs.getLast? = some x →
      x ∈ List.foldl (dequeAppend cap) [] xs)
  ∧ (xs.length = cap + 1 → ∀ x, xs.head? = some x → x ∉ xs.tail →
      x ∉ List.foldl (dequeAppend cap) [] xs) := by
  refine ⟨rfl, ?_, window_foldl cap xs, ?_, ?_, ?_⟩
  · rw [window_foldl, List.length_drop]; omega
  · intro hlen
    rw [window_foldl, hlen]
    have h1 : cap + 1 - cap = 1 := by omega
    rw [h1, List.drop_one]
  · intro hlen hcap x hlast
    rcases List.eq_nil_or_concat xs with hnil | ⟨zs, z, hzs⟩
    · rw [hnil] at hlen; simp at hlen
    · rw [List.concat_eq_append] at hzs
      subst hzs
      rw [List.getLast?_concat] at hlast
      have hx : z = x := by injection hlast
      subst hx
      rw [window_foldl]
      have hzlen : zs.length = cap := by
        simp only [List.length_append, List.length_singleton] at hlen; omega
      have hd : (zs ++ [z]).length - cap = 1 := by
        simp only [List.length_append, List.length_singleton]; omega
      rw [hd, List.drop_append_of_le_length (by omega : 1 ≤ zs.length)]
      exact List.mem_append_right _ (List.mem_singleton_self z)
  · intro hlen x hhead hnot
    rw [window_foldl, hlen]
    have h1 : cap + 1 - cap = 1 := by omega
    rw [h1, List.drop_one]
    exact hnot

/-- C4 witness: capacity 2, three distinct insertions — the window is the
last two readings, the third inserted reading is present, the first is not. -/
theorem c4_witness :
    rC ∈ List.foldl (dequeAppend 2) [] [rA, rB, rC]
    ∧ rA ∉ List.foldl (dequeAppend 2) [] [rA, rB, rC]
    ∧ List.foldl (dequeAppend 2) [] [rA, rB, rC] = [rB, rC] := by
  obtain ⟨-, -, -, h3, h4, h5⟩ := c4_window_bounded_fifo 2 [rA, rB, rC]
  exact ⟨h4 (by decide) (by decide) rC (by decide),
         h5 (by decide) rA (by decide) (by decide),
         h3 (by decide)⟩

/-- C2: whenever the tracked statistics count fewer than 10 observations,
`detecter_zscore` reports the insufficient-data state — not anomalous, a
`details` message instead of any z-value — for every input temperature and
humidity, however large. -/
theorem c2_zscore_warmup (stats : Stats) (t h : ℚ) (hc : stats.count < 10) :
    (detecter_zscore stats t h).is_anomaly = false
    ∧ (detecter_zscore stats t h).details = some "Données insuffisantes"
    ∧ (detecter_zscore stats t h).z_temperature = none
    ∧ (detecter_zscore stats t h).z_humidity = none := by
  simp [detecter_zscore, hc]

/-- C2 witness: the initial statistics (count 0) with an extreme reading. -/
theorem c2_witness :
    (detecter_zscore initStats 1000000 999999).is_anomaly = false
    ∧ (detecter_zscore initStats 1000000 999999).details
        = some "Données insuffisantes" := by
  obtain ⟨h1, h2, -, -⟩ := c2_zscore_warmup initStats 1000000 999999 (by decide)
  exact ⟨h1, h2⟩

/-- C3: with fewer than 20 buffered readings, `detecter_isolation_forest`
returns not-anomalous with an insufficient-data message, and its result does
not depend on the (abstracted) isolation-forest model at all — no model is
fitted or scored. -/
theorem c3_iforest_warmup (buffer : List Reading) (t h : ℚ)
    (hlen : buffer.length < 20) :
    (∀ env env' : Env, detecter_isolation_forest env buffer t h
        = detecter_isolation_forest env' buffer t h)
    ∧ ∀ env : Env, (detecter_isolation_forest env buffer t h).is_anomaly = false
        ∧ (detecter_isolation_forest env buffer t h).details
            = some "Données insuffisantes"
        ∧ (detecter_isolation_forest env buffer t h).prediction = none := by
  constructor
  · intro env env'
    simp [detecter_isolation_forest, hlen]
  · intro env
    simp [detecter_isolation_forest, hlen]

/-- C3 witness: a singleton window, evaluated in two environments whose
isolation-forest oracles disagree (`env1` would flag an outlier). -/
theorem c3_witness :
    detecter_isolation_forest env1 [rA] 25 40
      = detecter_isolation_forest env0 [rA] 25 40
    ∧ (detecter_isolation_forest env1 [rA] 25 40).is_anomaly = false := by
  obtain ⟨h1, h2⟩ := c3_iforest_warmup [rA] 25 40 (by decide)
  exact ⟨h1 env1 env0, (h2 env1).1⟩

/-- C7: `calculer_zscore` returns 0 whenever the standard deviation is 0
(for any value and mean), and `(valeur − moyenne) / ecart_type` otherwise. -/
theorem c7_zscore_zero_std (v m s : ℚ) :
    calculer_zscore v m 0 = 0
    ∧ (s ≠ 0 → calculer_zscore v m s = (v - m) / s) := by
  constructor
  · simp [calculer_zscore]
  · intro hs
    simp [calculer_zscore, hs]

/-- C7 witness: a zero-variance window yields z = 0 even far from the mean;
a nonzero deviation divides as usual. -/
theorem c7_witness :
    calculer_zscore 1000 25 0 = 0 ∧ calculer_zscore 7 3 2 = (7 - 3) / 2 := by
  exact ⟨(c7_zscore_zero_std 1000 25 2).1,
         (c7_zscore_zero_std 7 3 2).2 (by decide)⟩

/-- When both numeric keys are present, `detecter_anomalie` succeeds and its
result is the literal combination of the two detector verdicts. -/
lemma detecter_anomalie_ok (env : Env) (stats : Stats) (buffer : List Reading)
    (donnee : Reading) (t h : ℚ)
    (ht : donnee.temperature = some t) (hh : donnee.humidity = some h) :
    detecter_anomalie env stats buffer donnee = .ok
      { is_anomaly := (detecter_zscore stats t h).is_anomaly
          || (detecter_isolation_forest env buffer t h).is_anomaly
        detection_methods :=
          (if (detecter_zscore stats t h).is_anomaly then ["Z-score"] else [])
          ++ (if (detecter_isolation_forest env buffer t h).is_anomaly
              then ["Isolation Forest"] else [])
        zscore_result := detecter_zscore stats t h
        iforest_result := detecter_isolation_forest env buffer t h } := by
  simp [detecter_anomalie, ht, hh]

/-- Every successful combined result carries the OR verdict and the literal
method list of the detectors that fired. -/
lemma detecter_anomalie_ok_inv (env : Env) (stats : Stats)
    (buffer : List Reading) (donnee : Reading) (cr : CombinedResult)
    (h : detecter_anomalie env stats buffer donnee = .ok cr) :
    cr.is_anomaly = (cr.zscore_result.is_anomaly
        || cr.iforest_result.is_anomaly)
    ∧ cr.detection_methods
        = (if cr.zscore_result.is_anomaly then ["Z-score"] else [])
          ++ (if cr.iforest_result.is_anomaly
              then ["Isolation Forest"] else []) := by
  rcases ht : donnee.temperature with _ | t
  · simp [detecter_anomalie, ht] at h
  · rcases hh : donnee.humidity with _ | hu
    · simp [detecter_anomalie, ht, hh] at h
    · rw [detecter_anomalie_ok env stats buffer donnee t hu ht hh] at h
      injection h with h
      subst h
      exact ⟨rfl, rfl⟩

/-- Every successful combined result is one of the four literal shapes:
nothing fired, only the z-score, only the forest, or both. -/
lemma combined_methods_cases (env : Env) (stats : Stats)
    (buffer : List Reading) (donnee : Reading) (cr : CombinedResult)
    (h : detecter_anomalie env stats buffer donnee = .ok cr) :
    (cr.is_anomaly = false ∧ cr.detection_methods = [])
    ∨ (cr.is_anomaly = true ∧ cr.detection_methods = ["Z-score"])
    ∨ (cr.is_anomaly = true ∧ cr.detection_methods = ["Isolation Forest"])
    ∨ (cr.is_anomaly = true
        ∧ cr.detection_methods = ["Z-score", "Isolation Forest"]) := by
  obtain ⟨h1, h2⟩ := detecter_anomalie_ok_inv env stats buffer donnee cr h
  cases hz : cr.zscore_result.is_anomaly <;>
    cases hf : cr.iforest_result.is_anomaly <;>
    rw [hz, hf] at h1 h2 <;> simp at h1 h2 <;> simp [h1, h2]

/-- C1: for every processed reading (both numeric fields present), the
combined verdict is the OR of the two detectors, `detection_methods` is
non-empty exactly when `is_anomaly` is true, and it contains exactly the
names of the detectors whose individual verdict was positive. -/
theorem c1_verdict_combination (env : Env) (stats : Stats)
    (buffer : List Reading) (donnee : Reading) (t h : ℚ)
    (ht : donnee.temperature = some t) (hh : donnee.humidity = some h) :
    ∃ r : CombinedResult,
      detecter_anomalie env stats buffer donnee = .ok r
      ∧ r.is_anomaly = ((detecter_zscore stats t h).is_anomaly
          || (detecter_isolation_forest env buffer t h).is_anomaly)
      ∧ (r.detection_methods ≠ [] ↔ r.is_anomaly = true)
      ∧ ("Z-score" ∈ r.detection_methods
          ↔ (detecter_zscore stats t h).is_anomaly = true)
      ∧ ("Isolation Forest" ∈ r.detection_methods
          ↔ (detecter_isolation_forest env buffer t h).is_anomaly = true)
      ∧ ∀ m ∈ r.detection_methods, m = "Z-score" ∨ m = "Isolation Forest" := by
  refine ⟨_, detecter_anomalie_ok env stats buffer donnee t h ht hh,
    rfl, ?_, ?_, ?_, ?_⟩ <;>
    cases hz : (detecter_zscore stats t h).is_anomaly <;>
    cases hf : (detecter_isolation_forest env buffer t h).is_anomaly <;>
    simp [hz, hf]

/-- C1 witness: a concrete reading through a cold engine — no detector
fires, the method list is empty, matching the negative verdict. -/
theorem c1_witness :
    ∃ r : CombinedResult,
      detecter_anomalie env0 initStats [] rA = .ok r
      ∧ (r.detection_methods ≠ [] ↔ r.is_anomaly = true) := by
  obtain ⟨r, hr, -, h2, -, -, -⟩ :=
    c1_verdict_combination env0 initStats [] rA 25 40 rfl rfl
  exact ⟨r, hr, h2⟩

/-- C6 counterexample: on a one-element window (length < 2),
`mettre_a_jour_stats` returns early and leaves `count` at its previous value
0 — it is NOT set to the window length 1, contrary to the claim that the
returned record has `count` set to the window length. -/
theorem c6_counterexample :
    ([rA] : List Reading).length = 1
    ∧ (mettre_a_jour_stats env0 [rA] initStats).count = 0
    ∧ (mettre_a_jour_stats env0 [rA] initStats).count
        ≠ ([rA] : List Reading).length := by
  refine ⟨rfl, rfl, by decide⟩

/-- C6 (amended): for a window of length < 2 the recomputation returns the
statistics record entirely unchanged — `count` included, so `count` keeps
its previous value (initially 0) rather than being set to the window
length; for length ≥ 2 it recomputes all five fields from the full window
contents alone, independently of the previous record. -/
theorem c6_stats_recompute (env : Env) (buffer : List Reading)
    (stats : Stats) :
    (buffer.length < 2 → mettre_a_jour_stats env buffer stats = stats)
    ∧ (2 ≤ buffer.length →
        mettre_a_jour_stats env buffer stats = statsFromWindow env buffer
        ∧ (mettre_a_jour_stats env buffer stats).count = buffer.length
        ∧ ∀ stats' : Stats, mettre_a_jour_stats env buffer stats'
            = mettre_a_jour_stats env buffer stats) := by
  constructor
  · intro hlt
    simp [mettre_a_jour_stats, hlt]
  · intro hge
    have hn : ¬ buffer.length < 2 := by omega
    refine ⟨by simp [mettre_a_jour_stats, hn], ?_, ?_⟩
    · simp [mettre_a_jour_stats, hn, statsFromWindow]
    · intro stats'
      simp [mettre_a_jour_stats, hn]

/-- C6 witness: an empty window leaves the initial record untouched; a
two-element window yields `count = 2` regardless of the previous record. -/
theorem c6_witness :
    mettre_a_jour_stats env0 [] initStats = initStats
    ∧ (mettre_a_jour_stats env0 [rA, rB] initStats).count = 2 := by
  exact ⟨(c6_stats_recompute env0 [] initStats).1 (by decide),
         ((c6_stats_recompute env0 [rA, rB] initStats).2 (by decide)).2.1⟩

/-- C5 counterexample: ingesting a reading whose `temperature` key is
absent does signal an error, but the engine state is mutated: the window
length grows from 0 to 1, contrary to the claim that the reading is
rejected before insertion with the window length unchanged. -/
theorem c5_counterexample :
    (ajouter_donnee env0 initDetecteur rMalformed).1
      = .error (.keyError "temperature")
    ∧ initDetecteur.buffer_donnees.length = 0
    ∧ (ajouter_donnee env0 initDetecteur rMalformed).2.buffer_donnees.length
        = 1 := by
  exact ⟨rfl, rfl, rfl⟩

/-- C5 (amended): for every reading missing a required numeric field,
ingestion signals the invalid-reading condition (a `KeyError`) to the
caller and appends nothing to the ledgers — history and anomalies are
unchanged — but only after the reading has already been appended to the
window and the statistics updated: the window holds the appended reading
and its length grows by one whenever it was below capacity. -/
theorem c5_malformed_mutates_window (env : Env) (d : Detecteur)
    (r : Reading) (hm : r.temperature = none ∨ r.humidity = none) :
    (∃ e : PyError, (ajouter_donnee env d r).1 = .error e)
    ∧ (ajouter_donnee env d r).2.historique = d.historique
    ∧ (ajouter_donnee env d r).2.anomalies = d.anomalies
    ∧ (ajouter_donnee env d r).2.buffer_donnees
        = dequeAppend d.buffer_taille d.buffer_donnees r
    ∧ (d.buffer_donnees.length < d.buffer_taille →
        (ajouter_donnee env d r).2.buffer_donnees.length
          = d.buffer_donnees.length + 1) := by
  have hlen : (d.buffer_donnees.length < d.buffer_taille →
      (dequeAppend d.buffer_taille d.buffer_donnees r).length
        = d.buffer_donnees.length + 1) := by
    intro hcap
    rw [dequeAppend_eq, List.length_drop]
    simp only [List.length_append, List.length_singleton]
    omega
  have herr : ∃ e : PyError, detecter_anomalie env
      (mettre_a_jour_stats env (dequeAppend d.buffer_taille d.buffer_donnees r)
        d.stats)
      (dequeAppend d.buffer_taille d.buffer_donnees r) r = .error e := by
    rcases hm with h1 | h2
    · exact ⟨.keyError "temperature", by simp [detecter_anomalie, h1]⟩
    · rcases ht : r.temperature with _ | t
      · exact ⟨.keyError "temperature", by simp [detecter_anomalie, ht]⟩
      · exact ⟨.keyError "humidity", by simp [detecter_anomalie, ht, h2]⟩
  obtain ⟨e, he⟩ := herr
  simp only [ajouter_donnee, he]
  exact ⟨⟨e, rfl⟩, by trivial, by trivial, by trivial, hlen⟩

/-- C5 witness: the malformed payload against a fresh engine — error
signaled, ledgers untouched, window length 0 → 1. -/
theorem c5_witness :
    (∃ e : PyError, (ajouter_donnee env0 initDetecteur rMalformed).1
      = .error e)
    ∧ (ajouter_donnee env0 initDetecteur rMalformed).2.historique
        = initDetecteur.historique
    ∧ (ajouter_donnee env0 initDetecteur rMalformed).2.buffer_donnees.length
        = initDetecteur.buffer_donnees.length + 1 := by
  obtain ⟨h1, h2, -, -, h5⟩ :=
    c5_malformed_mutates_window env0 initDetecteur rMalformed (Or.inl rfl)
  exact ⟨h1, h2, h5 (by decide)⟩

/-- One ingestion step preserves the ledger invariant «`anomalies` is the
anomalous subsequence of `historique`», both on success and on error. -/
lemma ajouter_donnee_ledger_step (env : Env) (d : Detecteur) (r : Reading)
    (hinv : d.anomalies = d.historique.filter fun en => en.is_anomaly) :
    (ajouter_donnee env d r).2.anomalies
      = (ajouter_donnee env d r).2.historique.filter
          fun en => en.is_anomaly := by
  simp only [ajouter_donnee]
  split
  · exact hinv
  · next result heq =>
    cases hres : result.is_anomaly <;>
      simp [List.filter_append, hres, hinv]

/-- The ledger invariant is preserved along any run of ingestions. -/
lemma runAll_ledger_inv (env : Env) (rs : List Reading) :
    ∀ d : Detecteur,
      d.anomalies = d.historique.filter (fun en => en.is_anomaly) →
      (runAll env d rs).anomalies
        = (runAll env d rs).historique.filter fun en => en.is_anomaly := by
  induction rs with
  | nil => intro d h; exact h
  | cons r rs ih =>
    intro d h
    have hstep := ajouter_donnee_ledger_step env d r h
    simpa [runAll] using ih (ajouter_donnee env d r).2 hstep

/-- C8: each successful ingestion appends exactly one enriched record to
`historique` and that same record to `anomalies` exactly when its verdict
is anomalous; a failed ingestion appends to neither; consequently, after
every sequence of ingestions from the initial state, `anomalies` is exactly
the anomalous subsequence of `historique`. -/
theorem c8_ledger (env : Env) :
    (∀ (d : Detecteur) (r : Reading) (cr : CombinedResult),
      (ajouter_donnee env d r).1 = .ok cr →
      ∃ en : Enriched,
        (ajouter_donnee env d r).2.historique = d.historique ++ [en]
        ∧ en.is_anomaly = cr.is_anomaly
        ∧ (ajouter_donnee env d r).2.anomalies
            = if cr.is_anomaly then d.anomalies ++ [en] else d.anomalies)
    ∧ (∀ (d : Detecteur) (r : Reading) (e : PyError),
      (ajouter_donnee env d r).1 = .error e →
      (ajouter_donnee env d r).2.historique = d.historique
      ∧ (ajouter_donnee env d r).2.anomalies = d.anomalies)
    ∧ (∀ rs : List Reading,
      (runAll env initDetecteur rs).anomalies
        = (runAll env initDetecteur rs).historique.filter
            fun en => en.is_anomaly) := by
  refine ⟨?_, ?_, ?_⟩
  · intro d r cr hok
    simp only [ajouter_donnee] at hok ⊢
    split at hok
    · simp at hok
    · next result heq =>
      simp only at hok
      injection hok with hok
      subst hok
      exact ⟨_, rfl, rfl, rfl⟩
  · intro d r e herr
    simp only [ajouter_donnee] at herr ⊢
    split at herr
    · exact ⟨rfl, rfl⟩
    · simp at herr
  · intro rs
    exact runAll_ledger_inv env rs initDetecteur rfl

/-- C8 witness: a well-formed reading is appended to the history of a fresh
engine; a malformed one leaves both ledgers empty; a two-reading run keeps
the filter equation. -/
theorem c8_witness :
    (∃ en : Enriched, (ajouter_donnee env0 initDetecteur rA).2.historique
        = initDetecteur.historique ++ [en])
    ∧ (ajouter_donnee env0 initDetecteur rMalformed).2.anomalies
        = initDetecteur.anomalies
    ∧ (runAll env0 initDetecteur [rA, rB]).anomalies
        = (runAll env0 initDetecteur [rA, rB]).historique.filter
            fun en => en.is_anomaly := by
  obtain ⟨h1, h2, h3⟩ := c8_ledger env0
  obtain ⟨en, he, -, -⟩ := h1 initDetecteur rA
    { is_anomaly := false, detection_methods := []
      zscore_result :=
        { is_anomaly := false, method := "zscore"
          details := some "Données insuffisantes"
          z_temperature := none, z_humidity := none, seuil := none }
      iforest_result :=
        { is_anomaly := false, method := "isolation_forest"
          details := some "Données insuffisantes"
          prediction := none, anomaly_score := none } } rfl
  exact ⟨⟨en, he⟩,
    (h2 initDetecteur rMalformed (.keyError "temperature") rfl).2,
    h3 [rA, rB]⟩

/-- C10: every enriched reading appended by a successful ingestion has
`status = "ANOMALIE"` exactly when its `is_anomaly` field is true and
`status = "NORMAL"` otherwise, and its joined `detection_methods` string is
empty exactly when `is_anomaly` is false. -/
theorem c10_enriched_consistency (env : Env) (d : Detecteur) (r : Reading)
    (cr : CombinedResult) (hok : (ajouter_donnee env d r).1 = .ok cr) :
    ∃ en : Enriched,
      (ajouter_donnee env d r).2.historique = d.historique ++ [en]
      ∧ en.is_anomaly = cr.is_anomaly
      ∧ (en.status = "ANOMALIE" ↔ en.is_anomaly = true)
      ∧ (en.status = "NORMAL" ↔ en.is_anomaly = false)
      ∧ (en.detection_methods = "" ↔ en.is_anomaly = false) := by
  simp only [ajouter_donnee] at hok ⊢
  split at hok
  · simp at hok
  · next result heq =>
    simp only at hok
    injection hok with hok
    subst hok
    refine ⟨_, rfl, rfl, ?_, ?_, ?_⟩ <;>
      rcases combined_methods_cases env _ _ r result heq with
        ⟨ha, hm⟩ | ⟨ha, hm⟩ | ⟨ha, hm⟩ | ⟨ha, hm⟩ <;>
      simp [ha, hm, String.intercalate, String.intercalate.go]

/-- C10 witness: the cold-engine ingestion of a well-formed reading yields
an enriched record whose status string agrees with its verdict. -/
theorem c10_witness :
    ∃ en : Enriched,
      (ajouter_donnee env0 initDetecteur rA).2.historique
        = initDetecteur.historique ++ [en]
      ∧ (en.status = "NORMAL" ↔ en.is_anomaly = false) := by
  obtain ⟨en, h1, -, -, h4, -⟩ := c10_enriched_consistency env0 initDetecteur rA
    { is_anomaly := false, detection_methods := []
      zscore_result :=
        { is_anomaly := false, method := "zscore"
          details := some "Données insuffisantes"
          z_temperature := none, z_humidity := none, seuil := none }
      iforest_result :=
        { is_anomaly := false, method := "isolation_forest"
          details := some "Données insuffisantes"
          prediction := none, anomaly_score := none } } rfl
  exact ⟨en, h1, h4⟩

/-- C9: `alerte_temperature_critique` invokes the alert sink exactly on the
hard raw-value thresholds — a single `"critical"` invocation above 35 °C, a
single `"warning"` invocation below 10 °C, and for every temperature in
[10, 35] no invocation at all together with a `False` return — taking no
account of any anomaly verdict (the function has no verdict input). -/
theorem c9_alert_thresholds (env : EmailEnv) (sid : String) (t : ℚ) :
    (35 < t → ∃ inv : AlertInvocation,
      (alerte_temperature_critique env sid t).1 = [inv]
      ∧ inv.niveau = "critical")
    ∧ (t < 10 → ∃ inv : AlertInvocation,
      (alerte_temperature_critique env sid t).1 = [inv]
      ∧ inv.niveau = "warning")
    ∧ (10 ≤ t → t ≤ 35 →
      alerte_temperature_critique env sid t = ([], false)) := by
  refine ⟨?_, ?_, ?_⟩
  · intro hgt
    exact ⟨⟨"🔥 SURCHAUFFE - Capteur " ++ sid,
        "TEMPÉRATURE CRITIQUE DÉTECTÉE", "critical"⟩,
      by simp [alerte_temperature_critique, envoyer_alerte, hgt], rfl⟩
  · intro hlt
    have hn : ¬ 35 < t := by linarith
    exact ⟨⟨"❄️ SOUS-TEMPÉRATURE - Capteur " ++ sid,
        "TEMPÉRATURE BASSE DÉTECTÉE", "warning"⟩,
      by simp [alerte_temperature_critique, envoyer_alerte, hn, hlt], rfl⟩
  · intro h10 h35
    have hn1 : ¬ 35 < t := by linarith
    have hn2 : ¬ t < 10 := by linarith
    simp [alerte_temperature_critique, hn1, hn2]

/-- C9 witness: 40 °C triggers a critical invocation, 5 °C a warning one,
and 20 °C triggers nothing and returns failure. -/
theorem c9_witness :
    (∃ inv : AlertInvocation,
      (alerte_temperature_critique emailEnv0 "C001" 40).1 = [inv]
      ∧ inv.niveau = "critical")
    ∧ (∃ inv : AlertInvocation,
      (alerte_temperature_critique emailEnv0 "C001" 5).1 = [inv]
      ∧ inv.niveau = "warning")
    ∧ alerte_temperature_critique emailEnv0 "C001" 20 = ([], false) := by
  exact ⟨(c9_alert_thresholds emailEnv0 "C001" 40).1 (by norm_num),
         (c9_alert_thresholds emailEnv0 "C001" 5).2.1 (by norm_num),
         (c9_alert_thresholds emailEnv0 "C001" 20).2.2 (by norm_num)
           (by norm_num)⟩

end IoT

